import Mathlib

/-!
Shallow embedding of the Ticket-Agent repository's client logic:
the `POST /api/submit-ticket` Next.js handler with its mock AI helpers,
the resilient HTTP client (retry/backoff, error taxonomy), the
WebSocket reconnection helper, and the ticket CRUD surface of the
API client together with the React-Query cache effect of deletion.
-/

namespace TicketAgent

/-! ## JavaScript string primitives

`jsIncludes s pat` models JavaScript `s.includes(pat)` (substring test);
`String.toLower`/`String.trim` model `toLowerCase()`/`trim()` on the
ASCII texts the handler inspects. -/

/-- Does the second character list start with the first one? -/
def listStartsWith : List Char → List Char → Bool
  | [], _ => true
  | _ :: _, [] => false
  | a :: as, b :: bs => a == b && listStartsWith as bs

/-- Does the character list contain `pat` as a contiguous run? -/
def listHasSub (pat : List Char) : List Char → Bool
  | [] => listStartsWith pat []
  | c :: rest => listStartsWith pat (c :: rest) || listHasSub pat rest

/-- JavaScript `s.includes(pat)`. -/
def jsIncludes (s pat : String) : Bool :=
  listHasSub pat.data s.data

/-- JavaScript `s.trim()`: strip leading and trailing whitespace. -/
def jsTrim (s : String) : String :=
  ⟨((s.data.dropWhile Char.isWhitespace).reverse.dropWhile Char.isWhitespace).reverse⟩

/-! ## Mock AI helpers of the `POST /api/submit-ticket` route -/

/-- The keyword list of `detectLanguage` in the route handler. -/
def hindiWords : List String :=
  ["nahi", "hai", "kya", "kaise", "mein", "ko", "se", "aur", "kaam", "chal"]

/-- `detectLanguage(text)` from the route handler. -/
def detectLanguage (text : String) : String :=
  let hasHindi := hindiWords.any fun word => jsIncludes text.toLower word
  if hasHindi then "Hindi+English" else "English"

/-- `classifyIssue(text)` from the route handler: a keyword if-chain
with a `"General Support"` fallback. -/
def classifyIssue (text : String) : String :=
  let lowerText := text.toLower
  if jsIncludes lowerText "vpn" || jsIncludes lowerText "network" ||
      jsIncludes lowerText "wifi" || jsIncludes lowerText "internet" then
    "Network/VPN"
  else if jsIncludes lowerText "email" || jsIncludes lowerText "mail" then
    "Email"
  else if jsIncludes lowerText "laptop" || jsIncludes lowerText "computer" ||
      jsIncludes lowerText "hardware" then
    "Hardware"
  else if jsIncludes lowerText "software" || jsIncludes lowerText "application" ||
      jsIncludes lowerText "app" then
    "Software"
  else if jsIncludes lowerText "password" || jsIncludes lowerText "login" ||
      jsIncludes lowerText "access" then
    "Account Access"
  else
    "General Support"

/-- All keywords tested by `classifyIssue`, in source order. -/
def categoryKeywords : List String :=
  ["vpn", "network", "wifi", "internet",
   "email", "mail",
   "laptop", "computer", "hardware",
   "software", "application", "app",
   "password", "login", "access"]

/-- `determineUrgency(text)` from the route handler. -/
def determineUrgency (text : String) : String :=
  let lowerText := text.toLower
  if jsIncludes lowerText "urgent" || jsIncludes lowerText "critical" ||
      jsIncludes lowerText "down" || jsIncludes lowerText "emergency" then
    "Critical"
  else if jsIncludes lowerText "important" || jsIncludes lowerText "asap" ||
      jsIncludes lowerText "quickly" then
    "High"
  else if jsIncludes lowerText "when possible" || jsIncludes lowerText "sometime" then
    "Low"
  else
    "Medium"

/-- `generateMockResponse(text)` from the route handler: the `responses`
object holds fixed entries for `Network/VPN` and `Email` plus a default,
each with an English and a Hindi variant. -/
def generateMockResponse (text : String) : String :=
  let category := classifyIssue text
  let hasHindi := jsIncludes (detectLanguage text) "Hindi"
  if category = "Network/VPN" then
    if hasHindi then
      "मैं समझ गया कि आपको VPN/network की समस्या है। ये steps try करें:\n\n1. VPN client restart करें\n2. Internet connection check करें\n3. Different VPN server try करें\n4. DNS cache clear करें\n\nअगर ये काम नहीं करता, तो मैं इसे network team को भेज रहा हूं, वो 30 मिनट में contact करेंगे।"
    else
      "I understand you're having VPN/network issues. Here are some quick steps to try:\n\n1. Restart your VPN client\n2. Check your internet connection\n3. Try connecting to a different VPN server\n4. Clear your DNS cache\n\nIf these don't help, I'm escalating this to our network team who will contact you within 30 minutes."
  else if category = "Email" then
    if hasHindi then
      "Email की problem है। ये solutions try करें:\n\n1. Internet connection check करें\n2. Email client restart करें (Outlook/Thunderbird)\n3. Email settings verify करें\n4. Email server down तो नहीं, check करें\n\nEmail administration team को भी inform कर रहा हूं server-side issues check करने के लिए।"
    else
      "I see you're having email issues. Let's try these solutions:\n\n1. Check your internet connection\n2. Restart your email client (Outlook/Thunderbird)\n3. Verify your email settings\n4. Check if the email server is down\n\nI'm also notifying our email administration team to investigate any server-side issues."
  else
    if hasHindi then
      "IT support contact करने के लिए धन्यवाद। आपकी request record हो गई है और हमारी team जल्दी इसे देखेगी। दी गई जानकारी के आधार पर, मैं इसे " ++ category ++ " issue categorize कर रहा हूं।\n\nBusiness hours में 2 घंटे के अंदर specialized team का response मिलेगा।"
    else
      "Thank you for contacting IT support. I've recorded your request and our team will review it shortly. Based on the information provided, I'm categorizing this as a " ++ category ++ " issue.\n\nYou can expect a response from our specialized team within 2 hours during business hours."

/-! ## The `POST /api/submit-ticket` handler -/

/-- The mock ticket object built by the handler on the success path. -/
structure MockTicket where
  id : String
  source : String
  text : String
  language : String
  category : String
  urgency : String
  ai_response : String
  status : String
  created_at : String
  updated_at : String
  user_email : String
deriving DecidableEq, Repr

/-- The two `NextResponse.json` outcomes of the handler. -/
inductive PostResult where
  | errorResp (error : String) (statusCode : Nat)
  | ticketResp (t : MockTicket)
deriving DecidableEq, Repr

/-- The `POST` handler of `/api/submit-ticket`.  A missing `text` field is
`none`; `nowMs` stands for `Date.now()` and `nowISO` for
`new Date().toISOString()`.  The guard `!text || !text.trim()` rejects a
missing, empty, or whitespace-only text with a 400 response. -/
def postSubmitTicket (text : Option String) (source : String) (user_email : String)
    (nowMs : Nat) (nowISO : String) : PostResult :=
  match text with
  | none => .errorResp "Ticket text is required" 400
  | some s =>
    if s = "" ∨ jsTrim s = "" then
      .errorResp "Ticket text is required" 400
    else
      .ticketResp
        { id := "TK-" ++ toString nowMs
          source := source
          text := s
          language := detectLanguage s
          category := classifyIssue s
          urgency := determineUrgency s
          ai_response := generateMockResponse s
          status := "open"
          created_at := nowISO
          updated_at := nowISO
          user_email := user_email }

/-- The chat form's category fallback: `data.category || "General Support"`
(JavaScript `||`: a missing field and the empty string are both falsy). -/
def fallbackCategory (category : Option String) : String :=
  match category with
  | none => "General Support"
  | some s => if s = "" then "General Support" else s

/-! ## Resilient HTTP client: constants, error taxonomy, retry logic -/

/-- `DEFAULT_TIMEOUT` (milliseconds) of the HTTP client. -/
def DEFAULT_TIMEOUT : Nat := 30000

/-- `MAX_RETRIES` of the HTTP client. -/
def MAX_RETRIES : Nat := 3

/-- `RETRY_DELAY_BASE` (milliseconds) of the HTTP client. -/
def RETRY_DELAY_BASE : ℚ := 1000

/-- `getExponentialBackoffDelay(attempt)`; `rnd` stands for the value
drawn from `Math.random()`, which lies in `[0, 1)`. -/
def getExponentialBackoffDelay (attempt : Nat) (rnd : ℚ) : ℚ :=
  RETRY_DELAY_BASE * 2 ^ attempt + rnd * 1000

/-- The error values that can reach the retry logic and
`handleApiError`: `NetworkError`, `TimeoutError`, `APIError` (with its
optional HTTP status), and any other thrown value. -/
inductive ApiErrorKind where
  | networkErr (message : String)
  | timeoutErr (message : String)
  | apiErr (message : String) (status : Option Nat)
  | otherErr
deriving DecidableEq, Repr

/-- `isRetryableError(error)`.  The JavaScript ternary
`error.status ? ... : false` treats both a missing status and status `0`
as falsy. -/
def isRetryableError : ApiErrorKind → Bool
  | .networkErr _ => true
  | .timeoutErr _ => true
  | .apiErr _ status =>
      match status with
      | some s => if s ≠ 0 then decide (500 ≤ s) || decide (s = 429) else false
      | none => false
  | .otherErr => false

/-- The catch-block classification in `HTTPClient.request`: an
`AbortError` (fired by the `DEFAULT_TIMEOUT` abort controller) becomes a
`TimeoutError`; being offline or a fetch `TypeError` becomes a
`NetworkError`; anything else is kept as-is. -/
def classifyCaught (errName : String) (isFetchTypeError : Bool) (online : Bool)
    (err : ApiErrorKind) : ApiErrorKind :=
  if errName = "AbortError" then .timeoutErr "Request timed out"
  else if !online then .networkErr "No internet connection"
  else if isFetchTypeError then .networkErr "Network connection failed"
  else err

/-- The retry guard of `HTTPClient.request`:
`isRetryableError(error) && retryAttempt < MAX_RETRIES`. -/
def retryDecision (error : ApiErrorKind) (retryAttempt : Nat) : Bool :=
  isRetryableError error && decide (retryAttempt < MAX_RETRIES)

/-- The outcome of one HTTP attempt.  A failure carries the context the
catch block inspects: `error.name`, whether the error is a fetch
`TypeError`, the `navigator.onLine` value observed in the catch, and the
caught error value itself. -/
inductive AttemptOutcome where
  | success (response : String)
  | failure (errName : String) (isFetchTypeError : Bool) (online : Bool)
      (err : ApiErrorKind)

/-- The catch block plus retry recursion of `HTTPClient.request`:
`outcomes n` is what the `n`-th attempt does.  On a failure the catch
block FIRST throws a `TimeoutError` for an `AbortError`, a
`NetworkError` when offline or on a fetch `TypeError` — these propagate
with no retry — and only a fall-through error reaches the retry guard:
it is retried at `retryAttempt + 1` exactly when the guard holds, and
rethrown unchanged otherwise. -/
def requestLoop (outcomes : Nat → AttemptOutcome) (retryAttempt : Nat) :
    Except ApiErrorKind String :=
  match outcomes retryAttempt with
  | .success r => .ok r
  | .failure errName isFetchTypeError online err =>
    if errName = "AbortError" then .error (.timeoutErr "Request timed out")
    else if !online then .error (.networkErr "No internet connection")
    else if isFetchTypeError then .error (.networkErr "Network connection failed")
    else if h : retryDecision err retryAttempt = true then
      requestLoop outcomes (retryAttempt + 1)
    else
      .error err
termination_by MAX_RETRIES - retryAttempt
decreasing_by
  simp only [retryDecision, Bool.and_eq_true, decide_eq_true_eq] at h
  obtain ⟨-, h2⟩ := h
  simp only [MAX_RETRIES] at h2 ⊢
  omega

/-- Number of HTTP attempts `requestLoop` performs starting from a given
`retryAttempt`: the early-throw branches of the catch block end the
request after this single attempt. -/
def requestAttempts (outcomes : Nat → AttemptOutcome) (retryAttempt : Nat) : Nat :=
  match outcomes retryAttempt with
  | .success _ => 1
  | .failure errName isFetchTypeError online err =>
    if errName = "AbortError" then 1
    else if !online then 1
    else if isFetchTypeError then 1
    else if h : retryDecision err retryAttempt = true then
      1 + requestAttempts outcomes (retryAttempt + 1)
    else
      1
termination_by MAX_RETRIES - retryAttempt
decreasing_by
  simp only [retryDecision, Bool.and_eq_true, decide_eq_true_eq] at h
  obtain ⟨-, h2⟩ := h
  simp only [MAX_RETRIES] at h2 ⊢
  omega

/-- `handleApiError(error)`: the toast message shown for each error
category.  The `||` default for `error.message` treats the empty string
as falsy. -/
def handleApiError : ApiErrorKind → String
  | .networkErr _ => "Network connection failed. Please check your internet connection."
  | .timeoutErr _ => "Request timed out. Please try again."
  | .apiErr message status =>
      if status = some 429 then "Too many requests. Please wait a moment and try again."
      else if status = some 500 then "Server error occurred. Please try again later."
      else if message = "" then "An error occurred while processing your request."
      else message
  | .otherErr => "An unexpected error occurred. Please try again."

/-- Recognizer for the `instanceof NetworkError` branch of `handleApiError`. -/
def isNetworkCase : ApiErrorKind → Bool
  | .networkErr _ => true
  | _ => false

/-- Recognizer for the `instanceof TimeoutError` branch of `handleApiError`. -/
def isTimeoutCase : ApiErrorKind → Bool
  | .timeoutErr _ => true
  | _ => false

/-- Recognizer for the `instanceof APIError` branch of `handleApiError`. -/
def isApiCase : ApiErrorKind → Bool
  | .apiErr _ _ => true
  | _ => false

/-- Recognizer for the catch-all `else` branch of `handleApiError`. -/
def isOtherCase : ApiErrorKind → Bool
  | .otherErr => true
  | _ => false

/-! ## WebSocket reconnection helper -/

/-- The reconnection-relevant state of `WebSocketClient`. -/
structure WebSocketState where
  reconnectAttempts : Nat
deriving DecidableEq, Repr

/-- `maxReconnectAttempts` of `WebSocketClient`. -/
def maxReconnectAttempts : Nat := 5

/-- `reconnectDelay` (milliseconds) of `WebSocketClient`. -/
def reconnectDelay : Nat := 1000

/-- The `onclose` guard: a reconnect is scheduled iff
`event.code !== 1000 && reconnectAttempts < maxReconnectAttempts`. -/
def shouldScheduleReconnect (closeCode : Nat) (st : WebSocketState) : Bool :=
  decide (closeCode ≠ 1000) && decide (st.reconnectAttempts < maxReconnectAttempts)

/-- The delay computed by `scheduleReconnect`:
`reconnectDelay * Math.pow(2, reconnectAttempts)`. -/
def scheduleReconnectDelay (st : WebSocketState) : Nat :=
  reconnectDelay * 2 ^ st.reconnectAttempts

/-- The state after `scheduleReconnect` runs (`reconnectAttempts++`). -/
def afterScheduleReconnect (st : WebSocketState) : WebSocketState :=
  { st with reconnectAttempts := st.reconnectAttempts + 1 }

/-! ## APIClient ticket operations and the React-Query cache effect -/

/-- HTTP methods of the `HTTPClient` convenience wrappers. -/
inductive HttpMethod where
  | get | post | put | patch | delete
deriving DecidableEq, Repr

/-- The ticket operations exposed by `APIClient`. -/
inductive TicketOp where
  | createTicket | getTickets | getTicket | updateTicket | deleteTicket
deriving DecidableEq, Repr

/-- The HTTP method each `APIClient` ticket operation issues. -/
def ticketOpMethod : TicketOp → HttpMethod
  | .createTicket => .post
  | .getTickets => .get
  | .getTicket => .get
  | .updateTicket => .patch
  | .deleteTicket => .delete

/-- A cached ticket record as handled by the React-Query hooks. -/
structure TicketRec where
  id : String
  status : String
deriving DecidableEq, Repr

/-- The `onSuccess` cache update of `useDeleteTicket`:
`tickets.filter(ticket => ticket.id !== deletedId)`. -/
def deleteFromCachedList (deletedId : String) (tickets : List TicketRec) :
    List TicketRec :=
  tickets.filter fun ticket => ticket.id != deletedId

/-- The `onSuccess` cache update of `useUpdateTicket`:
`tickets.map(ticket => ticket.id === data.id ? data : ticket)`. -/
def updateCachedList (data : TicketRec) (tickets : List TicketRec) :
    List TicketRec :=
  tickets.map fun ticket => if ticket.id = data.id then data else ticket

/-! ## Helper lemmas -/

/-- `isRetryableError` holds exactly on the transient taxonomy: network
errors, timeouts, and API errors whose status is `≥ 500` or `429`. -/
theorem isRetryableError_iff (e : ApiErrorKind) :
    isRetryableError e = true ↔
      (∃ m, e = .networkErr m) ∨ (∃ m, e = .timeoutErr m) ∨
      (∃ m s, e = .apiErr m (some s) ∧ (500 ≤ s ∨ s = 429)) := by
  cases e with
  | networkErr m => simp [isRetryableError]
  | timeoutErr m => simp [isRetryableError]
  | otherErr => simp [isRetryableError]
  | apiErr m status =>
    cases status with
    | none => simp [isRetryableError]
    | some s =>
      by_cases hs : s = 0
      · subst hs; simp [isRetryableError]
      · simp only [isRetryableError, if_pos hs, Bool.or_eq_true, decide_eq_true_eq,
          ApiErrorKind.apiErr.injEq, Option.some.injEq]
        constructor
        · rintro (h | h)
          · exact Or.inr (Or.inr ⟨m, s, ⟨rfl, rfl⟩, Or.inl h⟩)
          · exact Or.inr (Or.inr ⟨m, s, ⟨rfl, rfl⟩, Or.inr h⟩)
        · rintro (⟨m', hm⟩ | ⟨m', hm⟩ | ⟨m', s', ⟨-, rfl⟩, h | h⟩)
          · exact absurd hm (by simp)
          · exact absurd hm (by simp)
          · exact Or.inl h
          · exact Or.inr h

/-- An aborted attempt (the timeout fired): the catch block throws a
`TimeoutError` before the retry logic, so the request ends after this
single attempt. -/
theorem requestLoop_abort (outcomes : Nat → AttemptOutcome) (k : Nat)
    (tf online : Bool) (err : ApiErrorKind)
    (ho : outcomes k = .failure "AbortError" tf online err) :
    requestLoop outcomes k = .error (.timeoutErr "Request timed out") ∧
    requestAttempts outcomes k = 1 := by
  constructor
  · rw [requestLoop, ho]; simp
  · rw [requestAttempts, ho]; simp

/-- An attempt failing while offline: the catch block throws a
`NetworkError` before the retry logic, so the request ends after this
single attempt. -/
theorem requestLoop_offline (outcomes : Nat → AttemptOutcome) (k : Nat)
    (errName : String) (tf : Bool) (err : ApiErrorKind)
    (ho : outcomes k = .failure errName tf false err)
    (hn : errName ≠ "AbortError") :
    requestLoop outcomes k = .error (.networkErr "No internet connection") ∧
    requestAttempts outcomes k = 1 := by
  constructor
  · rw [requestLoop, ho]; simp [hn]
  · rw [requestAttempts, ho]; simp [hn]

/-- An attempt failing with a fetch `TypeError`: the catch block throws
a `NetworkError` before the retry logic, so the request ends after this
single attempt. -/
theorem requestLoop_fetch_type_error (outcomes : Nat → AttemptOutcome) (k : Nat)
    (errName : String) (err : ApiErrorKind)
    (ho : outcomes k = .failure errName true true err)
    (hn : errName ≠ "AbortError") :
    requestLoop outcomes k = .error (.networkErr "Network connection failed") ∧
    requestAttempts outcomes k = 1 := by
  constructor
  · rw [requestLoop, ho]; simp [hn]
  · rw [requestAttempts, ho]; simp [hn]

/-- A fall-through error with a false retry guard is rethrown
unchanged. -/
theorem requestLoop_propagates (outcomes : Nat → AttemptOutcome) (k : Nat)
    (errName : String) (err : ApiErrorKind)
    (ho : outcomes k = .failure errName false true err)
    (hn : errName ≠ "AbortError")
    (hr : retryDecision err k = false) :
    requestLoop outcomes k = .error err := by
  rw [requestLoop, ho]
  simp [hn, hr]

/-- A fall-through error with a true retry guard is retried at the next
attempt number. -/
theorem requestLoop_retries (outcomes : Nat → AttemptOutcome) (k : Nat)
    (errName : String) (err : ApiErrorKind)
    (ho : outcomes k = .failure errName false true err)
    (hn : errName ≠ "AbortError")
    (hr : retryDecision err k = true) :
    requestLoop outcomes k = requestLoop outcomes (k + 1) := by
  rw [requestLoop, ho]
  simp [hn, hr]

/-- Attempt-count bound: from attempt number `k` the loop performs at
most `fuel` further attempts once `MAX_RETRIES - k < fuel`. -/
theorem requestAttempts_le_fuel (fuel : Nat) :
    ∀ (outcomes : Nat → AttemptOutcome) (k : Nat), MAX_RETRIES - k < fuel →
      requestAttempts outcomes k ≤ fuel := by
  induction fuel with
  | zero => intro o k h; omega
  | succ f ih =>
    intro o k h
    rw [requestAttempts]
    cases ho : o k with
    | success r =>
      show 1 ≤ f + 1
      omega
    | failure errName tf online err =>
      show (if errName = "AbortError" then 1
            else if !online then 1
            else if tf then 1
            else if _ : retryDecision err k = true then 1 + requestAttempts o (k + 1)
            else 1) ≤ f + 1
      split_ifs with h1 h2 h3 h4
      · omega
      · omega
      · omega
      · have hk : k < MAX_RETRIES := by
          simp only [retryDecision, Bool.and_eq_true, decide_eq_true_eq] at h4
          exact h4.2
        have hrec := ih o (k + 1) (by omega)
        omega
      · omega

/-- `determineUrgency` always lands in the four urgency labels. -/
theorem determineUrgency_mem (s : String) :
    determineUrgency s ∈ ["Low", "Medium", "High", "Critical"] := by
  simp only [determineUrgency]
  split_ifs <;> decide

/-- `classifyIssue` always lands in the six category labels. -/
theorem classifyIssue_mem (s : String) :
    classifyIssue s ∈
      ["Network/VPN", "Email", "Hardware", "Software", "Account Access",
       "General Support"] := by
  simp only [classifyIssue]
  split_ifs <;> decide

/-- `detectLanguage` always lands in the two language labels. -/
theorem detectLanguage_mem (s : String) :
    detectLanguage s ∈ ["English", "Hindi+English"] := by
  simp only [detectLanguage]
  split_ifs <;> decide

/-- `classifyIssue` returns the fallback exactly when all five keyword
conditions of its if-chain are false. -/
theorem classifyIssue_general_iff_conds (t : String) :
    classifyIssue t = "General Support" ↔
      ((jsIncludes t.toLower "vpn" || jsIncludes t.toLower "network" ||
        jsIncludes t.toLower "wifi" || jsIncludes t.toLower "internet") = false ∧
       (jsIncludes t.toLower "email" || jsIncludes t.toLower "mail") = false ∧
       (jsIncludes t.toLower "laptop" || jsIncludes t.toLower "computer" ||
        jsIncludes t.toLower "hardware") = false ∧
       (jsIncludes t.toLower "software" || jsIncludes t.toLower "application" ||
        jsIncludes t.toLower "app") = false ∧
       (jsIncludes t.toLower "password" || jsIncludes t.toLower "login" ||
        jsIncludes t.toLower "access") = false) := by
  simp only [classifyIssue]
  split_ifs with h1 h2 h3 h4 h5
  · exact iff_of_false (by decide) (by simp [h1])
  · exact iff_of_false (by decide) (by simp [h2])
  · exact iff_of_false (by decide) (by simp [h3])
  · exact iff_of_false (by decide) (by simp [h4])
  · exact iff_of_false (by decide) (by simp [h5])
  · refine iff_of_true rfl ?_
    simp only [Bool.not_eq_true] at h1 h2 h3 h4 h5
    exact ⟨h1, h2, h3, h4, h5⟩

/-- The keyword-list formulation agrees with the five if-chain
conditions. -/
theorem keywords_any_eq_false_iff (t : String) :
    (categoryKeywords.any fun k => jsIncludes t.toLower k) = false ↔
      ((jsIncludes t.toLower "vpn" || jsIncludes t.toLower "network" ||
        jsIncludes t.toLower "wifi" || jsIncludes t.toLower "internet") = false ∧
       (jsIncludes t.toLower "email" || jsIncludes t.toLower "mail") = false ∧
       (jsIncludes t.toLower "laptop" || jsIncludes t.toLower "computer" ||
        jsIncludes t.toLower "hardware") = false ∧
       (jsIncludes t.toLower "software" || jsIncludes t.toLower "application" ||
        jsIncludes t.toLower "app") = false ∧
       (jsIncludes t.toLower "password" || jsIncludes t.toLower "login" ||
        jsIncludes t.toLower "access") = false) := by
  simp only [categoryKeywords, List.any_cons, List.any_nil, Bool.or_false,
    Bool.or_eq_false_iff]
  tauto

/-! ## Claim theorems -/

/-- C2: for every 0-indexed retry attempt `n` and jitter draw
`rnd ∈ [0, 1)`, the backoff delay satisfies
`1000 * 2 ^ n ≤ getExponentialBackoffDelay n rnd < 1000 * 2 ^ n + 1000`,
and its deterministic part `1000 * 2 ^ n` is strictly increasing across
consecutive attempts. -/
theorem backoff_delay_bounds_and_monotone (n : Nat) (rnd : ℚ)
    (h0 : 0 ≤ rnd) (h1 : rnd < 1) :
    1000 * 2 ^ n ≤ getExponentialBackoffDelay n rnd ∧
    getExponentialBackoffDelay n rnd < 1000 * 2 ^ n + 1000 ∧
    (1000 : ℚ) * 2 ^ n < 1000 * 2 ^ (n + 1) := by
  have h2 : (0 : ℚ) < 2 ^ n := by positivity
  refine ⟨?_, ?_, ?_⟩ <;>
  · simp only [getExponentialBackoffDelay, RETRY_DELAY_BASE, pow_succ]
    nlinarith

/-- C2 witness: the bounds at attempt `0` with jitter draw `1/2`. -/
theorem backoff_delay_bounds_and_monotone_witness :
    (0 : ℚ) ≤ 1 / 2 ∧ (1 / 2 : ℚ) < 1 ∧
    (1000 * 2 ^ 0 ≤ getExponentialBackoffDelay 0 (1 / 2) ∧
     getExponentialBackoffDelay 0 (1 / 2) < 1000 * 2 ^ 0 + 1000 ∧
     (1000 : ℚ) * 2 ^ 0 < 1000 * 2 ^ (0 + 1)) :=
  ⟨by norm_num, by norm_num,
   backoff_delay_bounds_and_monotone 0 (1 / 2) (by norm_num) (by norm_num)⟩

/-- C8: the retry recursion of `HTTPClient.request` terminates, and a
single logical request performs at most `MAX_RETRIES + 1 = 4` attempts;
the bound is attained when every attempt fails with a retryable server
error (an `APIError` with status 503) that falls through the catch
block's early throws to the retry logic. -/
theorem request_terminates_within_four_attempts :
    (∀ outcomes : Nat → AttemptOutcome,
        requestAttempts outcomes 0 ≤ MAX_RETRIES + 1) ∧
    requestAttempts
        (fun _ => .failure "APIError" false true (.apiErr "HTTP 503" (some 503))) 0 =
      MAX_RETRIES + 1 ∧
    MAX_RETRIES + 1 = 4 := by
  refine ⟨fun o => requestAttempts_le_fuel 4 o 0 (by simp [MAX_RETRIES]), ?_, rfl⟩
  rw [requestAttempts, requestAttempts, requestAttempts, requestAttempts]
  simp [retryDecision, isRetryableError, MAX_RETRIES]

/-- C1 counterexample: a request aborted by the timeout surfaces a
`TimeoutError` — transient by the claim's own taxonomy and by
`isRetryableError` — yet the catch block throws it before the retry
logic: the request performs exactly one attempt and propagates the
error, so "retried exactly when the error is transient" fails. -/
theorem timeout_is_transient_yet_never_retried :
    isRetryableError (ApiErrorKind.timeoutErr "Request timed out") = true ∧
    requestLoop
        (fun _ => AttemptOutcome.failure "AbortError" false true ApiErrorKind.otherErr) 0 =
      Except.error (ApiErrorKind.timeoutErr "Request timed out") ∧
    requestAttempts
        (fun _ => AttemptOutcome.failure "AbortError" false true ApiErrorKind.otherErr) 0 =
      1 :=
  ⟨rfl,
   (requestLoop_abort _ 0 false true ApiErrorKind.otherErr rfl).1,
   (requestLoop_abort _ 0 false true ApiErrorKind.otherErr rfl).2⟩

/-- C1 amended: the catch block of `HTTPClient.request` first handles
the timeout, offline, and fetch-`TypeError` conditions by throwing a
`TimeoutError` or `NetworkError` to the caller with NO retry; only an
error falling through those checks reaches the retry logic, and it is
retried exactly when `isRetryableError` holds — for an `APIError`, a
status `≥ 500` or `429` — and fewer than `MAX_RETRIES` (3) retries have
been performed; otherwise it is rethrown unchanged to the caller. -/
theorem retry_only_after_early_throws :
    (∀ (tf online : Bool) (err : ApiErrorKind) (k : Nat)
        (outcomes : Nat → AttemptOutcome),
        outcomes k = .failure "AbortError" tf online err →
        requestLoop outcomes k = .error (.timeoutErr "Request timed out") ∧
        requestAttempts outcomes k = 1) ∧
    (∀ (errName : String) (tf : Bool) (err : ApiErrorKind) (k : Nat)
        (outcomes : Nat → AttemptOutcome),
        outcomes k = .failure errName tf false err → errName ≠ "AbortError" →
        requestLoop outcomes k = .error (.networkErr "No internet connection") ∧
        requestAttempts outcomes k = 1) ∧
    (∀ (errName : String) (err : ApiErrorKind) (k : Nat)
        (outcomes : Nat → AttemptOutcome),
        outcomes k = .failure errName true true err → errName ≠ "AbortError" →
        requestLoop outcomes k = .error (.networkErr "Network connection failed") ∧
        requestAttempts outcomes k = 1) ∧
    (∀ (errName : String) (err : ApiErrorKind) (k : Nat)
        (outcomes : Nat → AttemptOutcome),
        outcomes k = .failure errName false true err → errName ≠ "AbortError" →
        (retryDecision err k = true →
          requestLoop outcomes k = requestLoop outcomes (k + 1)) ∧
        (retryDecision err k = false → requestLoop outcomes k = .error err)) ∧
    (∀ (err : ApiErrorKind) (k : Nat),
        retryDecision err k = true ↔
          (((∃ m, err = .networkErr m) ∨ (∃ m, err = .timeoutErr m) ∨
            (∃ m s, err = .apiErr m (some s) ∧ (500 ≤ s ∨ s = 429))) ∧
           k < MAX_RETRIES)) := by
  refine ⟨fun tf online err k o ho => requestLoop_abort o k tf online err ho,
    fun errName tf err k o ho hn => requestLoop_offline o k errName tf err ho hn,
    fun errName err k o ho hn => requestLoop_fetch_type_error o k errName err ho hn,
    fun errName err k o ho hn =>
      ⟨fun hr => requestLoop_retries o k errName err ho hn hr,
       fun hr => requestLoop_propagates o k errName err ho hn hr⟩,
    ?_⟩
  intro err k
  rw [retryDecision, Bool.and_eq_true, decide_eq_true_eq, isRetryableError_iff]

/-- C1 amended witness: a 404 API error falls through the early throws
and is rethrown without retry, while a 503 API error at attempt 0 is
retried. -/
theorem retry_only_after_early_throws_witness :
    requestLoop
        (fun _ => AttemptOutcome.failure "APIError" false true
          (ApiErrorKind.apiErr "HTTP 404" (some 404))) 0 =
      Except.error (ApiErrorKind.apiErr "HTTP 404" (some 404)) ∧
    retryDecision (ApiErrorKind.apiErr "HTTP 503" (some 503)) 0 = true :=
  ⟨((retry_only_after_early_throws.2.2.2.1 "APIError"
      (ApiErrorKind.apiErr "HTTP 404" (some 404)) 0 _ rfl (by decide)).2 (by decide)),
   (retry_only_after_early_throws.2.2.2.2 (ApiErrorKind.apiErr "HTTP 503" (some 503)) 0).mpr
     ⟨Or.inr (Or.inr ⟨"HTTP 503", 503, rfl, Or.inl (by norm_num)⟩), by decide⟩⟩

/-- C3: a reconnection is scheduled for a close event iff the close code
is not `1000` and fewer than `5` reconnect attempts have been made; the
scheduled delay for attempt `k` is `1000 * 2 ^ k` milliseconds, and
every scheduled delay is capped: it never exceeds `16000` ms. -/
theorem websocket_reconnect_policy :
    (∀ (code : Nat) (st : WebSocketState),
        shouldScheduleReconnect code st = true ↔
          (code ≠ 1000 ∧ st.reconnectAttempts < 5)) ∧
    (∀ st : WebSocketState,
        scheduleReconnectDelay st = 1000 * 2 ^ st.reconnectAttempts) ∧
    (∀ (code : Nat) (st : WebSocketState),
        shouldScheduleReconnect code st = true →
        scheduleReconnectDelay st ≤ 16000) := by
  refine ⟨?_, fun st => rfl, ?_⟩
  · intro code st
    simp [shouldScheduleReconnect, maxReconnectAttempts]
  · intro code st h
    have h5 : st.reconnectAttempts < 5 := by
      simp only [shouldScheduleReconnect, maxReconnectAttempts, Bool.and_eq_true,
        decide_eq_true_eq] at h
      exact h.2
    have hp : 2 ^ st.reconnectAttempts ≤ 2 ^ 4 :=
      Nat.pow_le_pow_right (by norm_num) (by omega)
    calc scheduleReconnectDelay st = 1000 * 2 ^ st.reconnectAttempts := rfl
      _ ≤ 1000 * 2 ^ 4 := Nat.mul_le_mul_left _ hp
      _ = 16000 := by norm_num

/-- C3 witness: an abnormal close (code `1006`) with no prior attempts
schedules a reconnect, and that delay is within the cap. -/
theorem websocket_reconnect_policy_witness :
    shouldScheduleReconnect 1006 ⟨0⟩ = true ∧ scheduleReconnectDelay ⟨0⟩ ≤ 16000 :=
  ⟨by decide, websocket_reconnect_policy.2.2 1006 ⟨0⟩ (by decide)⟩

/-- C4 counterexample: `" "` is a non-empty text, yet the handler
answers with the 400 error response, not a ticket object — the guard
`!text || !text.trim()` also rejects whitespace-only text. -/
theorem whitespace_text_rejected :
    (" " : String) ≠ "" ∧
    postSubmitTicket (some " ") "web" "user@powergrid.com" 0
        "2026-01-01T00:00:00.000Z" =
      PostResult.errorResp "Ticket text is required" 400 := by
  constructor
  · decide
  · simp only [postSubmitTicket]
    rw [if_pos (Or.inr (by decide))]

/-- C4 amended: for every request whose text is non-empty AFTER
trimming whitespace, the handler returns a ticket object carrying all
of the advertised fields, with `category`, `urgency`, `language` and
`ai_response` computed deterministically from the submitted text alone. -/
theorem submit_ticket_success_fields (s src em : String) (ms : Nat) (iso : String)
    (h : jsTrim s ≠ "") :
    ∃ t : MockTicket,
      postSubmitTicket (some s) src em ms iso = PostResult.ticketResp t ∧
      t.id = "TK-" ++ toString ms ∧ t.source = src ∧ t.text = s ∧
      t.language = detectLanguage s ∧ t.category = classifyIssue s ∧
      t.urgency = determineUrgency s ∧ t.ai_response = generateMockResponse s ∧
      t.status = "open" ∧ t.created_at = iso ∧ t.updated_at = iso ∧
      t.user_email = em := by
  have hcond : ¬ (s = "" ∨ jsTrim s = "") := by
    rintro (h1 | h2)
    · exact h (by rw [h1]; decide)
    · exact h h2
  simp only [postSubmitTicket, if_neg hcond]
  exact ⟨_, rfl, rfl, rfl, rfl, rfl, rfl, rfl, rfl, rfl, rfl, rfl, rfl⟩

/-- C4 amended witness: the success path at the concrete text
`"hello"`. -/
theorem submit_ticket_success_fields_witness :
    jsTrim "hello" ≠ "" ∧
    ∃ t : MockTicket,
      postSubmitTicket (some "hello") "web" "user@powergrid.com" 17 "2026-01-01" =
        PostResult.ticketResp t ∧
      t.id = "TK-" ++ toString 17 ∧ t.source = "web" ∧ t.text = "hello" ∧
      t.language = detectLanguage "hello" ∧ t.category = classifyIssue "hello" ∧
      t.urgency = determineUrgency "hello" ∧
      t.ai_response = generateMockResponse "hello" ∧
      t.status = "open" ∧ t.created_at = "2026-01-01" ∧
      t.updated_at = "2026-01-01" ∧ t.user_email = "user@powergrid.com" :=
  ⟨by decide,
   submit_ticket_success_fields "hello" "web" "user@powergrid.com" 17 "2026-01-01"
     (by decide)⟩

/-- C5 counterexample: the system does expose a removal flow —
`APIClient.deleteTicket` issues HTTP DELETE, and the `useDeleteTicket`
cache update drops the deleted record from the cached ticket list. -/
theorem delete_removes_ticket_record :
    ticketOpMethod TicketOp.deleteTicket = HttpMethod.delete ∧
    deleteFromCachedList "TK-1" [{ id := "TK-1", status := "open" }] = [] := by
  exact ⟨rfl, by decide⟩

/-- C5 amended: `deleteTicket` is the single hard-delete among the
exposed ticket operations: every other operation issues a non-DELETE
method, the delete cache update removes exactly the records with the
deleted id, and the update cache effect never removes a record. -/
theorem delete_is_the_only_removal :
    (∀ op : TicketOp, op ≠ TicketOp.deleteTicket →
        ticketOpMethod op ≠ HttpMethod.delete) ∧
    (∀ (d : String) (ts : List TicketRec) (t : TicketRec),
        t ∈ deleteFromCachedList d ts ↔ t ∈ ts ∧ t.id ≠ d) ∧
    (∀ (data : TicketRec) (ts : List TicketRec),
        (updateCachedList data ts).length = ts.length) := by
  refine ⟨?_, ?_, ?_⟩
  · intro op hop
    cases op <;> simp_all [ticketOpMethod]
  · intro d ts t
    simp [deleteFromCachedList, List.mem_filter, bne_iff_ne]
  · intro data ts
    simp [updateCachedList]

/-- C5 amended witness: creating a ticket is not a DELETE, and deleting
`"TK-1"` keeps an unrelated record while an updated list keeps its
length. -/
theorem delete_is_the_only_removal_witness :
    ticketOpMethod TicketOp.createTicket ≠ HttpMethod.delete ∧
    ({ id := "TK-2", status := "open" } ∈
        deleteFromCachedList "TK-1" [{ id := "TK-2", status := "open" }] ↔
      ({ id := "TK-2", status := "open" } : TicketRec) ∈
          [({ id := "TK-2", status := "open" } : TicketRec)] ∧
        ("TK-2" : String) ≠ "TK-1") :=
  ⟨delete_is_the_only_removal.1 TicketOp.createTicket (by decide),
   delete_is_the_only_removal.2.1 "TK-1" [{ id := "TK-2", status := "open" }]
     { id := "TK-2", status := "open" }⟩

/-- C6: `classifyIssue` returns `"General Support"` exactly when the
lowercased text contains none of the category keywords, and the chat
form substitutes `"General Support"` when the server response carries
no category (a missing or empty `category` field). -/
theorem general_support_fallback :
    (∀ t : String,
        classifyIssue t = "General Support" ↔
          (categoryKeywords.any fun k => jsIncludes t.toLower k) = false) ∧
    (∀ c : Option String, (c = none ∨ c = some "") →
        fallbackCategory c = "General Support") := by
  constructor
  · intro t
    rw [keywords_any_eq_false_iff]
    exact classifyIssue_general_iff_conds t
  · rintro c (rfl | rfl) <;> rfl

/-- C6 witness: a missing category falls back to `"General Support"`. -/
theorem general_support_fallback_witness :
    fallbackCategory none = "General Support" :=
  general_support_fallback.2 none (Or.inl rfl)

/-- C7: every error reaching `handleApiError` is in exactly one of the
four categories (network, timeout, API, unexpected); the fixed toast
messages of the categories — with the API category further split into
status 429, status 500, and the default for other statuses — are
pairwise distinct; an `AbortError` raised by the `DEFAULT_TIMEOUT`
(30-second) abort controller is surfaced as a `TimeoutError`. -/
theorem error_taxonomy_and_toasts :
    (∀ e : ApiErrorKind,
        (isNetworkCase e).toNat + (isTimeoutCase e).toNat +
          (isApiCase e).toNat + (isOtherCase e).toNat = 1) ∧
    [handleApiError (.networkErr "Network error occurred"),
     handleApiError (.timeoutErr "Request timed out"),
     handleApiError (.apiErr "" (some 429)),
     handleApiError (.apiErr "" (some 500)),
     handleApiError (.apiErr "" (some 404)),
     handleApiError .otherErr].Nodup ∧
    (∀ (isFetchTypeError online : Bool) (err : ApiErrorKind),
        classifyCaught "AbortError" isFetchTypeError online err =
          ApiErrorKind.timeoutErr "Request timed out") ∧
    DEFAULT_TIMEOUT = 30000 := by
  refine ⟨?_, by decide, ?_, rfl⟩
  · intro e
    cases e <;> rfl
  · intro tf onl err
    rfl

/-- C9: a request whose body lacks a text field, or whose text is empty
or whitespace-only, gets the 400 response
`{error: 'Ticket text is required'}` and never reaches the success
path. -/
theorem missing_or_blank_text_rejected (text : Option String) (src em : String)
    (ms : Nat) (iso : String)
    (h : text = none ∨ ∃ s, text = some s ∧ jsTrim s = "") :
    postSubmitTicket text src em ms iso =
      PostResult.errorResp "Ticket text is required" 400 ∧
    ∀ t : MockTicket, postSubmitTicket text src em ms iso ≠ PostResult.ticketResp t := by
  have hmain : postSubmitTicket text src em ms iso =
      PostResult.errorResp "Ticket text is required" 400 := by
    rcases h with rfl | ⟨s, rfl, hs⟩
    · rfl
    · simp only [postSubmitTicket]
      rw [if_pos (Or.inr hs)]
  refine ⟨hmain, fun t ht => ?_⟩
  rw [hmain] at ht
  exact PostResult.noConfusion ht

/-- C9 witness: a body with no `text` field gets the 400 response. -/
theorem missing_or_blank_text_rejected_witness :
    postSubmitTicket none "web" "user@powergrid.com" 0 "2026-01-01" =
      PostResult.errorResp "Ticket text is required" 400 :=
  (missing_or_blank_text_rejected none "web" "user@powergrid.com" 0 "2026-01-01"
    (Or.inl rfl)).1

/-- C10: every ticket object the handler produces satisfies the enum
invariants: `status` is `'open'`, `urgency` is one of the four urgency
labels, `category` one of the six categories, and `language` one of the
two language labels. -/
theorem ticket_enum_invariants (text : Option String) (src em : String) (ms : Nat)
    (iso : String) (t : MockTicket)
    (h : postSubmitTicket text src em ms iso = PostResult.ticketResp t) :
    t.status = "open" ∧
    t.urgency ∈ ["Low", "Medium", "High", "Critical"] ∧
    t.category ∈
      ["Network/VPN", "Email", "Hardware", "Software", "Account Access",
       "General Support"] ∧
    t.language ∈ ["English", "Hindi+English"] := by
  match text with
  | none => exact PostResult.noConfusion h
  | some s =>
    simp only [postSubmitTicket] at h
    split at h
    · exact PostResult.noConfusion h
    · obtain rfl : _ = t := PostResult.ticketResp.inj h
      exact ⟨rfl, determineUrgency_mem s, classifyIssue_mem s, detectLanguage_mem s⟩

/-- C10 witness: the invariants at the concrete submission `"hello"`. -/
theorem ticket_enum_invariants_witness :
    postSubmitTicket (some "hello") "web" "user@powergrid.com" 0 "2026-01-01" =
      PostResult.ticketResp
        { id := "TK-" ++ toString 0, source := "web", text := "hello",
          language := detectLanguage "hello", category := classifyIssue "hello",
          urgency := determineUrgency "hello",
          ai_response := generateMockResponse "hello", status := "open",
          created_at := "2026-01-01", updated_at := "2026-01-01",
          user_email := "user@powergrid.com" } ∧
    (determineUrgency "hello" ∈ ["Low", "Medium", "High", "Critical"] ∧
     classifyIssue "hello" ∈
       ["Network/VPN", "Email", "Hardware", "Software", "Account Access",
        "General Support"] ∧
     detectLanguage "hello" ∈ ["English", "Hindi+English"]) := by
  have heq : postSubmitTicket (some "hello") "web" "user@powergrid.com" 0 "2026-01-01" =
      PostResult.ticketResp
        { id := "TK-" ++ toString 0, source := "web", text := "hello",
          language := detectLanguage "hello", category := classifyIssue "hello",
          urgency := determineUrgency "hello",
          ai_response := generateMockResponse "hello", status := "open",
          created_at := "2026-01-01", updated_at := "2026-01-01",
          user_email := "user@powergrid.com" } := by
    simp only [postSubmitTicket]
    rw [if_neg (by decide)]
  have hres := ticket_enum_invariants (some "hello") "web" "user@powergrid.com" 0
    "2026-01-01" _ heq
  exact ⟨heq, hres.2.1, hres.2.2.1, hres.2.2.2⟩

end TicketAgent
